import Mathlib

/-!
# PoseGpuRenderer: element selection and frame-buffer copy coordination

Shallow embedding of `src/openpose/pose/poseGpuRenderer.cpp`.

* `unsigned int` values are natural numbers reduced modulo `2 ^ 32`, `size_t`
  values modulo `2 ^ 64`.  The element index, the entries of
  `POSE_NUMBER_BODY_PARTS` and of `POSE_MAP_IDX` and `POSE_MAX_PEOPLE` are
  `unsigned int`; the number of people is a non-negative `int`.
* The build flag `CPU_ONLY` is the boolean `cpuOnly`; the claims are stated for
  the GPU build (`cpuOnly = false`) unless they hold in both.
* The scale `scaleNetToOutput` is only compared with the sentinel `-1.f`; it is
  a rational number here.
* `std::exception`s are values of `Exception`; `renderPose` is total and reports
  the exception it caught next to the pair it returns.
* Calls into the device (CUDA copies and the drawing kernels) are recorded, in
  order, in the log of a `GpuState`.  The log keeps the integer arguments of each
  call; pixel data, opacities and thresholds are not represented.  Device calls
  are taken to succeed (`cudaCheck` never raises).
* The constant tables of `poseParameters.hpp` are parameters, gathered in
  `PoseModel`.
-/

namespace op

/-! ## Machine integers -/

/-- Number of values of an `unsigned int`. -/
def UINT_MOD : Nat := 2 ^ 32

/-- Number of values of a `size_t`. -/
def SIZE_MOD : Nat := 2 ^ 64

/-- Addition of two `unsigned int`. -/
def uadd (a b : Nat) : Nat := (a + b) % UINT_MOD

/-- Subtraction of two `unsigned int`, wrapping below zero. -/
def usub (a b : Nat) : Nat := (a % UINT_MOD + UINT_MOD - b % UINT_MOD) % UINT_MOD

/-- Multiplication of two `unsigned int`. -/
def umul (a b : Nat) : Nat := (a * b) % UINT_MOD

/-- Conversion `unsigned int` to `int`, as done by the `std::pair<int, std::string>`
that `renderPose` returns. -/
def toInt (u : Nat) : Int :=
  if u % UINT_MOD < 2 ^ 31 then ((u % UINT_MOD : Nat) : Int)
  else ((u % UINT_MOD : Nat) : Int) - 2 ^ 32

/-! ## Strings -/

/-- The value `std::string::npos`. -/
def npos : Nat := 2 ^ 64 - 1

/-- The call `s.find(c)` for a one-character pattern: position of the first
occurrence, `npos` when there is none. -/
def find (s : String) (c : Char) : Nat :=
  if c ∈ s.data then s.data.indexOf c else npos

/-- The call `s.substr(pos, n)` for `pos` within the string. -/
def substr (s : String) (pos n : Nat) : String :=
  ⟨(s.data.drop pos).take n⟩

/-! ## Exceptions -/

/-- Exceptions met in `renderPose`. -/
inductive Exception where
  /-- Thrown by `error(message, ...)`. -/
  | runtimeError (what : String)
  /-- Thrown by `std::map::at` and `std::vector::at` on a missing key or position. -/
  | outOfRange
  deriving DecidableEq, Repr

/-- Modelled from the spec: the error-reporting utility `error` (defined outside
this file) logs the message and raises it; a failure is surfaced to the caller
and never retried. -/
def error (message : String) : Exception := .runtimeError message

/-! ## Arrays -/

/-- Modelled from the spec: the container `Array<float>` (declared outside this
file), of which `renderPose` only reads the dimensions.  The frame buffer is
channels x height x width, the keypoint set person x body part x 3. -/
structure ArrayFloat where
  /-- Dimensions, outermost first. -/
  size : List Nat
  deriving DecidableEq, Repr

/-- Number of stored floats. -/
def ArrayFloat.getVolume (a : ArrayFloat) : Nat :=
  if a.size = [] then 0 else a.size.prod

/-- Whether the array stores nothing. -/
def ArrayFloat.empty (a : ArrayFloat) : Bool := a.getVolume == 0

/-- Dimension `index`, zero when there is no such dimension. -/
def ArrayFloat.getSize (a : ArrayFloat) (index : Nat) : Nat := a.size.getD index 0

/-! ## Model constants and renderer -/

/-- The constants of one pose model, read from the tables of
`poseParameters.hpp` at `(int)poseModel`. -/
structure PoseModel where
  /-- Value `POSE_NUMBER_BODY_PARTS[(int)poseModel]`. -/
  numberBodyParts : Nat
  /-- Value `getPoseBodyPartMapping(poseModel).size()`. -/
  bodyPartMappingSize : Nat
  /-- Table `POSE_BODY_PART_PAIRS[(int)poseModel]`. -/
  bodyPartPairs : List Nat
  /-- Table `POSE_MAP_IDX[(int)poseModel]`. -/
  mapIdx : List Nat
  /-- Constant `POSE_MAX_PEOPLE`. -/
  maxPeople : Nat
  deriving DecidableEq, Repr

/-- The members of a `PoseGpuRenderer` that `renderPose` reads. -/
structure PoseGpuRenderer where
  /-- Member `mPoseModel`, resolved to its constants. -/
  mPoseModel : PoseModel
  /-- Member `mPartIndexToName` of the base `PoseRenderer`. -/
  mPartIndexToName : List (Nat × String)
  /-- Member `mBlendOriginalFrame` of the base `GpuRenderer`. -/
  mBlendOriginalFrame : Bool
  /-- Member `mIsLastRenderer` of the base `GpuRenderer`. -/
  mIsLastRenderer : Bool
  deriving DecidableEq, Repr

/-- The count `mNumberElementsToRender` that the constructor hands to
`GpuRenderer`: a `size_t` sum cast to `unsigned int`. -/
def mNumberElementsToRender (m : PoseModel) : Nat :=
  ((m.bodyPartMappingSize + m.bodyPartPairs.length / 2 + 3) % SIZE_MOD) % UINT_MOD

/-- Byte count `people * numberBodyParts * 3 * sizeof(float)`: the first two
products are `unsigned int`, the last one `size_t`. -/
def poseBytes (people numberBodyParts : Nat) : Nat :=
  (umul (umul people numberBodyParts) 3 * 4) % SIZE_MOD

/-- Size in bytes of the buffer `pGpuPose` allocated by `initializationOnThread`. -/
def initializationOnThread (m : PoseModel) : Nat :=
  poseBytes m.maxPeople m.numberBodyParts

/-! ## Device interactions -/

/-- One call into the device or the copy coordinator. -/
inductive DeviceOp where
  /-- Call of `cpuToGpuMemoryIfNotCopiedYet`; `transferred` tells whether the
  host to device copy of the frame buffer took place. -/
  | cpuToGpuMemoryIfNotCopiedYet (transferred : Bool)
  /-- The `cudaMemcpy` of the keypoints into `pGpuPose`, with its byte count. -/
  | cudaMemcpy (bytes : Nat)
  /-- Kernel `renderPoseKeypointsGpu`. -/
  | renderPoseKeypointsGpu (numberPeople : Nat)
  /-- Kernel `renderPoseHeatMapGpu` for one part (or the background). -/
  | renderPoseHeatMapGpu (elementRendered : Nat)
  /-- Kernel `renderPoseHeatMapsGpu`. -/
  | renderPoseHeatMapsGpu
  /-- Kernel `renderPosePAFsGpu`. -/
  | renderPosePAFsGpu
  /-- Kernel `renderPosePAFGpu` for one part pair. -/
  | renderPosePAFGpu (affinityPartMapped : Nat)
  /-- Call of `gpuToCpuMemoryIfLastRenderer`; `transferred` tells whether the
  device to host copy of the frame buffer took place. -/
  | gpuToCpuMemoryIfLastRenderer (transferred : Bool)
  deriving DecidableEq, Repr

/-- The five kinds of element. -/
inductive Category where
  | KEYPOINTS
  | SINGLE_HEATMAP
  | ALL_HEATMAPS
  | ALL_PAFS
  | SINGLE_PAF
  deriving DecidableEq, Repr

/-- The kind of element a drawing kernel renders; `none` for memory copies. -/
def DeviceOp.category : DeviceOp → Option Category
  | .renderPoseKeypointsGpu _ => some .KEYPOINTS
  | .renderPoseHeatMapGpu _ => some .SINGLE_HEATMAP
  | .renderPoseHeatMapsGpu => some .ALL_HEATMAPS
  | .renderPosePAFsGpu => some .ALL_PAFS
  | .renderPosePAFGpu _ => some .SINGLE_PAF
  | _ => none

/-- State shared by the renderers of one chain: the flag telling that the frame
buffer is already on the device, and the device calls made so far, oldest first. -/
structure GpuState where
  copied : Bool
  log : List DeviceOp
  deriving DecidableEq, Repr

/-- No device work done this frame. -/
def GpuState.idle : GpuState := { copied := false, log := [] }

/-- The state after the calls `ops`. -/
def GpuState.record (d : GpuState) (ops : List DeviceOp) : GpuState :=
  { d with log := d.log ++ ops }

/-- Modelled from the spec: `GpuRenderer::cpuToGpuMemoryIfNotCopiedYet` (defined
outside this file).  If the device mirror has not been populated this frame, copy
the host buffer to it and set the flag; otherwise skip the copy. -/
def cpuToGpuMemoryIfNotCopiedYet (d : GpuState) : GpuState :=
  if d.copied then d.record [.cpuToGpuMemoryIfNotCopiedYet false]
  else { copied := true, log := d.log ++ [.cpuToGpuMemoryIfNotCopiedYet true] }

/-- Modelled from the spec: `GpuRenderer::gpuToCpuMemoryIfLastRenderer` (defined
outside this file).  A stage that is last in the chain copies the device mirror
back to the host buffer; any other stage performs no copy-out. -/
def gpuToCpuMemoryIfLastRenderer (isLast : Bool) (d : GpuState) : GpuState :=
  d.record [.gpuToCpuMemoryIfLastRenderer isLast]

/-! ## renderPose -/

/-- The position `(elementRendered-numberBodyPartsPlusBkg-3)*2` in `POSE_MAP_IDX`. -/
def affinityPart (numberBodyParts elementRendered : Nat) : Nat :=
  umul (usub (usub elementRendered (uadd numberBodyParts 1)) 3) 2

/-- The body of the guarded block of `renderPose` after the copy-in: the name of
the element and the device calls made for it, or the exception thrown. -/
def renderPoseElement (r : PoseGpuRenderer) (poseKeypoints : ArrayFloat)
    (scaleNetToOutput : ℚ) (elementRendered : Nat) :
    Except Exception (String × List DeviceOp) :=
  let numberPeople := poseKeypoints.getSize 0
  let numberBodyParts := r.mPoseModel.numberBodyParts
  let numberBodyPartsPlusBkg := uadd numberBodyParts 1
  if elementRendered = 0 then
    .ok ("", (if poseKeypoints.empty then []
              else [DeviceOp.cudaMemcpy (poseBytes numberPeople numberBodyParts)])
             ++ [DeviceOp.renderPoseKeypointsGpu numberPeople])
  else if scaleNetToOutput = -1 then
    .error (error "Non valid scaleNetToOutput.")
  else if elementRendered ≤ numberBodyPartsPlusBkg then
    match r.mPartIndexToName.lookup (usub elementRendered 1) with
    | none => .error .outOfRange
    | some name => .ok (name, [DeviceOp.renderPoseHeatMapGpu elementRendered])
  else if elementRendered = uadd numberBodyPartsPlusBkg 1 then
    .ok ("Heatmaps", [DeviceOp.renderPoseHeatMapsGpu])
  else if elementRendered = uadd numberBodyPartsPlusBkg 2 then
    .ok ("PAFs (Part Affinity Fields)", [DeviceOp.renderPosePAFsGpu])
  else
    match r.mPoseModel.mapIdx[affinityPart numberBodyParts elementRendered]? with
    | none => .error .outOfRange
    | some affinityPartMapped =>
      match r.mPartIndexToName.lookup affinityPartMapped with
      | none => .error .outOfRange
      | some name =>
        .ok (substr name 0 (find name '('), [DeviceOp.renderPosePAFGpu affinityPartMapped])

/-- The `try` block of `renderPose`: what it returns or throws, and the state it
leaves.  `cpuOnly` tells whether the build defines `CPU_ONLY`; `elementRendered`
is the value loaded from `spElementToRender`. -/
def renderPoseTry (cpuOnly : Bool) (r : PoseGpuRenderer) (outputData poseKeypoints : ArrayFloat)
    (scaleNetToOutput : ℚ) (elementRendered : Nat) (d : GpuState) :
    Except Exception (Nat × String) × GpuState :=
  if outputData.empty then
    (.error (error "Empty Array<float> outputData."), d)
  else if cpuOnly then
    (.error (error "GPU rendering not available if `CPU_ONLY` is set."), d)
  else
    let numberPeople := poseKeypoints.getSize 0
    if numberPeople > 0 ∨ elementRendered ≠ 0 ∨ r.mBlendOriginalFrame = false then
      let d1 := cpuToGpuMemoryIfNotCopiedYet d
      match renderPoseElement r poseKeypoints scaleNetToOutput elementRendered with
      | .error e => (.error e, d1)
      | .ok (elementRenderedName, ops) =>
        (.ok (elementRendered, elementRenderedName),
          gpuToCpuMemoryIfLastRenderer r.mIsLastRenderer (d1.record ops))
    else
      (.ok (elementRendered, ""), gpuToCpuMemoryIfLastRenderer r.mIsLastRenderer d)

/-- What a call of `renderPose` yields. -/
structure RenderResult where
  /-- The returned pair. -/
  ret : Int × String
  /-- The exception the `catch` block reported through `error`, if any. -/
  raised : Option Exception
  /-- The coordinator state and device log after the call. -/
  gpu : GpuState
  deriving DecidableEq, Repr

/-- The method `PoseGpuRenderer::renderPose`.  An exception of the `try` block is
handed to `error` by the `catch` block, which returns the pair `(-1, "")`. -/
def renderPose (cpuOnly : Bool) (r : PoseGpuRenderer) (outputData poseKeypoints : ArrayFloat)
    (scaleNetToOutput : ℚ) (elementRendered : Nat) (d : GpuState) : RenderResult :=
  match renderPoseTry cpuOnly r outputData poseKeypoints scaleNetToOutput elementRendered d with
  | (.ok (element, name), d1) => { ret := (toInt element, name), raised := none, gpu := d1 }
  | (.error e, d1) => { ret := (-1, ""), raised := some e, gpu := d1 }

/-- The result of a call that went through the guarded block: copy-in, the
calls `ops` of the element, then the copy-out step. -/
def rendered (r : PoseGpuRenderer) (d : GpuState) (elementRendered : Nat) (name : String)
    (ops : List DeviceOp) : RenderResult :=
  { ret := (toInt elementRendered, name), raised := none,
    gpu := gpuToCpuMemoryIfLastRenderer r.mIsLastRenderer
      ((cpuToGpuMemoryIfNotCopiedYet d).record ops) }

/-- The result of a call whose guarded block was skipped: only the copy-out step. -/
def skipped (r : PoseGpuRenderer) (d : GpuState) (elementRendered : Nat) : RenderResult :=
  { ret := (toInt elementRendered, ""), raised := none,
    gpu := gpuToCpuMemoryIfLastRenderer r.mIsLastRenderer d }

/-- The result of a call that raised `e` and left the state `d`. -/
def failed (e : Exception) (d : GpuState) : RenderResult :=
  { ret := (-1, ""), raised := some e, gpu := d }

/-! ## Chains of renderers -/

/-- One renderer of a chain with the arguments of its `renderPose` call and the
element it loads. -/
structure Stage where
  renderer : PoseGpuRenderer
  poseKeypoints : ArrayFloat
  scaleNetToOutput : ℚ
  elementRendered : Nat

/-- The guard of `renderPose`: whether the stage enters the drawing block. -/
def Stage.draws (s : Stage) : Bool :=
  decide (s.poseKeypoints.getSize 0 > 0 ∨ s.elementRendered ≠ 0
    ∨ s.renderer.mBlendOriginalFrame = false)

/-- Modelled from the spec: the pipeline driver (outside this file) invokes
`renderPose` on each stage in order, on one frame buffer and one shared copy
state; a render that fails drops the frame, so the chain stops there. -/
def renderChain (cpuOnly : Bool) (outputData : ArrayFloat) :
    List Stage → GpuState → Option Exception × GpuState
  | [], d => (none, d)
  | s :: rest, d =>
    match (renderPose cpuOnly s.renderer outputData s.poseKeypoints s.scaleNetToOutput
        s.elementRendered d).raised with
    | some e => (some e, (renderPose cpuOnly s.renderer outputData s.poseKeypoints
        s.scaleNetToOutput s.elementRendered d).gpu)
    | none => renderChain cpuOnly outputData rest
        (renderPose cpuOnly s.renderer outputData s.poseKeypoints s.scaleNetToOutput
          s.elementRendered d).gpu

/-- Number of host to device copies of the frame buffer in a log. -/
def copyIns (log : List DeviceOp) : Nat :=
  log.count (DeviceOp.cpuToGpuMemoryIfNotCopiedYet true)

/-- Number of device to host copies of the frame buffer in a log. -/
def copyOuts (log : List DeviceOp) : Nat :=
  log.count (DeviceOp.gpuToCpuMemoryIfLastRenderer true)

/-! ## Concrete models -/

/-- A model with three body parts and two part pairs. -/
def smallModel : PoseModel :=
  { numberBodyParts := 3, bodyPartMappingSize := 4, bodyPartPairs := [0, 1, 1, 2],
    mapIdx := [4, 5, 6, 7], maxPeople := 96 }

/-- Part names of `smallModel`: the parts, the background, the two channels of
each pair. -/
def smallNames : List (Nat × String) :=
  [(0, "Head"), (1, "Neck"), (2, "Hip"), (3, "Background"),
   (4, "Head->Neck(X)"), (5, "Head->Neck(Y)"), (6, "Neck->Hip(X)"), (7, "Neck->Hip(Y)")]

/-- A renderer of `smallModel`, last of its chain, blending with the frame. -/
def smallRenderer : PoseGpuRenderer :=
  { mPoseModel := smallModel, mPartIndexToName := smallNames,
    mBlendOriginalFrame := true, mIsLastRenderer := true }

/-- A frame buffer of 3 channels, 4 rows and 5 columns. -/
def frame : ArrayFloat := { size := [3, 4, 5] }

/-- A frame buffer without data. -/
def emptyFrame : ArrayFloat := { size := [] }

/-- A keypoint set without people. -/
def noPeople : ArrayFloat := { size := [] }

/-- A model whose counts are those of the scenario "T = 26, body-part count 23". -/
def scenarioModel : PoseModel :=
  { numberBodyParts := 23, bodyPartMappingSize := 23, bodyPartPairs := [],
    mapIdx := [], maxPeople := 96 }

/-- A renderer of `scenarioModel` that does not blend with the original frame. -/
def scenarioRenderer : PoseGpuRenderer :=
  { mPoseModel := scenarioModel, mPartIndexToName := [(23, "Background")],
    mBlendOriginalFrame := false, mIsLastRenderer := true }

/-- A keypoint set of two people for `smallModel`. -/
def twoPeople : ArrayFloat := { size := [2, 3, 3] }

/-- A keypoint set of 97 people for `smallModel`, one more than `POSE_MAX_PEOPLE`. -/
def tooManyPeople : ArrayFloat := { size := [97, 3, 3] }

/-- A model with 20 body parts and two part pairs, hence 26 elements. -/
def pafScenarioModel : PoseModel :=
  { numberBodyParts := 20, bodyPartMappingSize := 21, bodyPartPairs := [0, 1, 1, 2],
    mapIdx := [21, 22, 23, 24], maxPeople := 96 }

/-- A renderer of `pafScenarioModel`, with the names of its pair channels. -/
def pafScenarioRenderer : PoseGpuRenderer :=
  { mPoseModel := pafScenarioModel,
    mPartIndexToName := [(20, "Background"), (21, "Nose->Neck(X)"), (22, "Nose->Neck(Y)"),
      (23, "Neck->Hip(X)"), (24, "Neck->Hip(Y)")],
    mBlendOriginalFrame := true, mIsLastRenderer := true }

/-- The renderer `smallRenderer` placed before the end of a chain. -/
def smallRendererInner : PoseGpuRenderer :=
  { smallRenderer with mIsLastRenderer := false }

/-- A last stage whose drawing is skipped: element 0, nobody, blending. -/
def skippedStage : Stage :=
  { renderer := smallRenderer, poseKeypoints := noPeople, scaleNetToOutput := 1,
    elementRendered := 0 }

/-- A stage drawing the keypoints of two people. -/
def keypointStage : Stage :=
  { renderer := smallRendererInner, poseKeypoints := twoPeople, scaleNetToOutput := 1,
    elementRendered := 0 }

/-- A stage drawing the heat map of the second part. -/
def heatMapStage : Stage :=
  { renderer := smallRendererInner, poseKeypoints := twoPeople, scaleNetToOutput := 1,
    elementRendered := 2 }

/-- A last stage drawing the PAF of the first pair. -/
def pafStage : Stage :=
  { renderer := smallRenderer, poseKeypoints := twoPeople, scaleNetToOutput := 1,
    elementRendered := 7 }

/-! ## General facts on `renderPose` -/

theorem renderPose_of_empty (cpuOnly : Bool) (r : PoseGpuRenderer)
    (outputData poseKeypoints : ArrayFloat) (scale : ℚ) (e : Nat) (d : GpuState)
    (h : outputData.empty = true) :
    renderPose cpuOnly r outputData poseKeypoints scale e d
      = failed (error "Empty Array<float> outputData.") d := by
  simp [renderPose, renderPoseTry, h, failed]

theorem renderPose_of_skip (r : PoseGpuRenderer) (outputData poseKeypoints : ArrayFloat)
    (scale : ℚ) (e : Nat) (d : GpuState) (h : outputData.empty = false)
    (hg : ¬ (poseKeypoints.getSize 0 > 0 ∨ e ≠ 0 ∨ r.mBlendOriginalFrame = false)) :
    renderPose false r outputData poseKeypoints scale e d = skipped r d e := by
  simp only [renderPose, renderPoseTry, h, skipped, if_neg hg]
  simp

theorem renderPose_of_ok (r : PoseGpuRenderer) (outputData poseKeypoints : ArrayFloat)
    (scale : ℚ) (e : Nat) (d : GpuState) (name : String) (ops : List DeviceOp)
    (h : outputData.empty = false)
    (hg : poseKeypoints.getSize 0 > 0 ∨ e ≠ 0 ∨ r.mBlendOriginalFrame = false)
    (hel : renderPoseElement r poseKeypoints scale e = .ok (name, ops)) :
    renderPose false r outputData poseKeypoints scale e d = rendered r d e name ops := by
  simp only [renderPose, renderPoseTry, h, rendered, if_pos hg, hel]
  simp

theorem renderPose_of_error (r : PoseGpuRenderer) (outputData poseKeypoints : ArrayFloat)
    (scale : ℚ) (e : Nat) (d : GpuState) (ex : Exception)
    (h : outputData.empty = false)
    (hg : poseKeypoints.getSize 0 > 0 ∨ e ≠ 0 ∨ r.mBlendOriginalFrame = false)
    (hel : renderPoseElement r poseKeypoints scale e = .error ex) :
    renderPose false r outputData poseKeypoints scale e d
      = failed ex (cpuToGpuMemoryIfNotCopiedYet d) := by
  simp only [renderPose, renderPoseTry, h, failed, if_pos hg, hel]
  simp

theorem renderPoseElement_zero (r : PoseGpuRenderer) (poseKeypoints : ArrayFloat) (scale : ℚ) :
    renderPoseElement r poseKeypoints scale 0
      = .ok ("", (if poseKeypoints.empty then []
                  else [DeviceOp.cudaMemcpy
                    (poseBytes (poseKeypoints.getSize 0) r.mPoseModel.numberBodyParts)])
                 ++ [DeviceOp.renderPoseKeypointsGpu (poseKeypoints.getSize 0)]) := by
  simp [renderPoseElement]

theorem renderPoseElement_sentinel (r : PoseGpuRenderer) (poseKeypoints : ArrayFloat)
    (e : Nat) (he : 0 < e) :
    renderPoseElement r poseKeypoints (-1) e
      = .error (error "Non valid scaleNetToOutput.") := by
  have h0 : e ≠ 0 := Nat.pos_iff_ne_zero.mp he
  simp [renderPoseElement, h0]

theorem toInt_zero : toInt 0 = 0 := by decide

/-! ## The claims -/

/-- C8: a call with an empty frame buffer fails with the error
"Empty Array<float> outputData." before any device interaction: the coordinator
state and the device log are left as they were (no copy-in, upload, kernel or
copy-out), and the pair returned is the sentinel `(-1, "")`, whatever the build,
the element, the keypoints and the scale. -/
theorem renderPose_empty_outputData (cpuOnly : Bool) (r : PoseGpuRenderer)
    (outputData poseKeypoints : ArrayFloat) (scale : ℚ) (e : Nat) (d : GpuState)
    (h : outputData.empty = true) :
    renderPose cpuOnly r outputData poseKeypoints scale e d
      = { ret := (-1, ""), raised := some (error "Empty Array<float> outputData."),
          gpu := d } :=
  renderPose_of_empty cpuOnly r outputData poseKeypoints scale e d h

theorem renderPose_empty_outputData_witness :
    emptyFrame.empty = true ∧
    renderPose false smallRenderer emptyFrame noPeople 1 7 GpuState.idle
      = { ret := (-1, ""), raised := some (error "Empty Array<float> outputData."),
          gpu := GpuState.idle } :=
  ⟨by decide, renderPose_empty_outputData false smallRenderer emptyFrame noPeople 1 7
    GpuState.idle (by decide)⟩

/-- C3: on a non-empty frame buffer (GPU build), element 0 succeeds with the pair
`(0, "")` for every scale, the sentinel `-1` included; every element `e > 0` with
the sentinel scale fails with "Non valid scaleNetToOutput.", whatever the
keypoints and the blend flag, after the copy-in call only: no kernel is invoked
and the copy-out step is not reached. -/
theorem renderPose_scale_requirement (r : PoseGpuRenderer)
    (outputData poseKeypoints : ArrayFloat) (d : GpuState)
    (h : outputData.empty = false) :
    (∀ scale : ℚ,
      (renderPose false r outputData poseKeypoints scale 0 d).raised = none ∧
      (renderPose false r outputData poseKeypoints scale 0 d).ret = (0, "")) ∧
    (∀ e : Nat, 0 < e →
      renderPose false r outputData poseKeypoints (-1) e d
        = { ret := (-1, ""), raised := some (error "Non valid scaleNetToOutput."),
            gpu := cpuToGpuMemoryIfNotCopiedYet d }) := by
  constructor
  · intro scale
    by_cases hg : poseKeypoints.getSize 0 > 0 ∨ (0 : Nat) ≠ 0 ∨ r.mBlendOriginalFrame = false
    · rw [renderPose_of_ok r outputData poseKeypoints scale 0 d _ _ h hg
        (renderPoseElement_zero r poseKeypoints scale)]
      simp [rendered, toInt_zero]
    · rw [renderPose_of_skip r outputData poseKeypoints scale 0 d h hg]
      simp [skipped, toInt_zero]
  · intro e he
    have hg : poseKeypoints.getSize 0 > 0 ∨ e ≠ 0 ∨ r.mBlendOriginalFrame = false :=
      Or.inr (Or.inl (Nat.pos_iff_ne_zero.mp he))
    rw [renderPose_of_error r outputData poseKeypoints (-1) e d _ h hg
      (renderPoseElement_sentinel r poseKeypoints e he)]
    rfl

theorem renderPose_scale_requirement_witness :
    frame.empty = false ∧
    (renderPose false smallRenderer frame noPeople (-1) 0 GpuState.idle).raised = none ∧
    renderPose false smallRenderer frame noPeople (-1) 7 GpuState.idle
      = { ret := (-1, ""), raised := some (error "Non valid scaleNetToOutput."),
          gpu := cpuToGpuMemoryIfNotCopiedYet GpuState.idle } :=
  ⟨by decide,
   ((renderPose_scale_requirement smallRenderer frame noPeople GpuState.idle (by decide)).1
      (-1)).1,
   (renderPose_scale_requirement smallRenderer frame noPeople GpuState.idle (by decide)).2
      7 (by decide)⟩

/-- The calls a kernel block makes are uploads and kernels, never a call of the
copy coordinator. -/
theorem renderPoseElement_ops (r : PoseGpuRenderer) (poseKeypoints : ArrayFloat) (scale : ℚ)
    (e : Nat) (name : String) (ops : List DeviceOp)
    (h : renderPoseElement r poseKeypoints scale e = .ok (name, ops)) :
    ∀ o ∈ ops, (∀ b, o ≠ DeviceOp.cpuToGpuMemoryIfNotCopiedYet b) ∧
      (∀ b, o ≠ DeviceOp.gpuToCpuMemoryIfLastRenderer b) := by
  unfold renderPoseElement at h
  simp only at h
  split_ifs at h
  all_goals first
    | (cases h; intro o ho; simp at ho; subst ho; simp)
    | (cases h; intro o ho; simp at ho; rcases ho with ho | ho <;> subst ho <;> simp)
    | skip
  · split at h
    · cases h
    · cases h; intro o ho; simp at ho; subst ho; simp
  · split at h
    · cases h
    · split at h
      · cases h
      · cases h; intro o ho; simp at ho; subst ho; simp

/-- Shape of every call that does not raise. -/
theorem renderPose_ok_shape (cpuOnly : Bool) (r : PoseGpuRenderer)
    (outputData poseKeypoints : ArrayFloat) (scale : ℚ) (e : Nat) (d : GpuState)
    (hr : (renderPose cpuOnly r outputData poseKeypoints scale e d).raised = none) :
    ∃ ops : List DeviceOp,
      (∀ o ∈ ops, (∀ b, o ≠ DeviceOp.cpuToGpuMemoryIfNotCopiedYet b) ∧
        (∀ b, o ≠ DeviceOp.gpuToCpuMemoryIfLastRenderer b)) ∧
      (renderPose cpuOnly r outputData poseKeypoints scale e d).gpu
        = if poseKeypoints.getSize 0 > 0 ∨ e ≠ 0 ∨ r.mBlendOriginalFrame = false then
            gpuToCpuMemoryIfLastRenderer r.mIsLastRenderer
              ((cpuToGpuMemoryIfNotCopiedYet d).record ops)
          else gpuToCpuMemoryIfLastRenderer r.mIsLastRenderer d := by
  cases hemp : outputData.empty
  case true =>
    rw [renderPose_of_empty cpuOnly r outputData poseKeypoints scale e d hemp] at hr
    simp [failed] at hr
  case false =>
    cases cpuOnly
    case true =>
      simp [renderPose, renderPoseTry, hemp] at hr
    case false =>
      by_cases hg : poseKeypoints.getSize 0 > 0 ∨ e ≠ 0 ∨ r.mBlendOriginalFrame = false
      · cases hel : renderPoseElement r poseKeypoints scale e with
        | error ex =>
          rw [renderPose_of_error r outputData poseKeypoints scale e d ex hemp hg hel] at hr
          simp [failed] at hr
        | ok v =>
          obtain ⟨name, ops⟩ := v
          refine ⟨ops, renderPoseElement_ops r poseKeypoints scale e name ops hel, ?_⟩
          rw [renderPose_of_ok r outputData poseKeypoints scale e d name ops hemp hg hel,
            if_pos hg]
          rfl
      · refine ⟨[], by simp, ?_⟩
        rw [renderPose_of_skip r outputData poseKeypoints scale e d hemp hg, if_neg hg]
        rfl

theorem cpuToGpuMemoryIfNotCopiedYet_log (d : GpuState) :
    (cpuToGpuMemoryIfNotCopiedYet d).log
      = d.log ++ [DeviceOp.cpuToGpuMemoryIfNotCopiedYet (!d.copied)] := by
  unfold cpuToGpuMemoryIfNotCopiedYet GpuState.record
  cases d.copied <;> simp

theorem cpuToGpuMemoryIfNotCopiedYet_copied (d : GpuState) :
    (cpuToGpuMemoryIfNotCopiedYet d).copied = true := by
  unfold cpuToGpuMemoryIfNotCopiedYet GpuState.record
  cases h : d.copied <;> simp [h]

theorem getSize_zero_empty (a : ArrayFloat) (h : a.getSize 0 = 0) : a.empty = true := by
  obtain ⟨sz⟩ := a
  cases sz with
  | nil => simp [ArrayFloat.empty, ArrayFloat.getVolume]
  | cons x xs =>
    simp [ArrayFloat.getSize] at h
    simp [ArrayFloat.empty, ArrayFloat.getVolume, h]

theorem getSize_pos_of_not_empty (a : ArrayFloat) (h : a.empty = false) : a.getSize 0 > 0 := by
  rcases Nat.eq_zero_or_pos (a.getSize 0) with h0 | h0
  · rw [getSize_zero_empty a h0] at h
    cases h
  · exact h0

/-- C6: every call that does not raise (its frame buffer is then non-empty) ends
with the copy-out step: the calls it adds to the device log are some calls `pre`
(the copy-in and the element, or nothing when the guard skipped the drawing)
followed by exactly one call of `gpuToCpuMemoryIfLastRenderer`, which transfers
exactly when the renderer is the last of its chain. -/
theorem renderPose_copy_out_step (cpuOnly : Bool) (r : PoseGpuRenderer)
    (outputData poseKeypoints : ArrayFloat) (scale : ℚ) (e : Nat) (d : GpuState)
    (hr : (renderPose cpuOnly r outputData poseKeypoints scale e d).raised = none) :
    ∃ pre : List DeviceOp,
      (renderPose cpuOnly r outputData poseKeypoints scale e d).gpu.log
        = d.log ++ pre ++ [DeviceOp.gpuToCpuMemoryIfLastRenderer r.mIsLastRenderer] ∧
      (∀ b, DeviceOp.gpuToCpuMemoryIfLastRenderer b ∉ pre) ∧
      (¬ (poseKeypoints.getSize 0 > 0 ∨ e ≠ 0 ∨ r.mBlendOriginalFrame = false) → pre = []) := by
  obtain ⟨ops, hops, hgpu⟩ := renderPose_ok_shape cpuOnly r outputData poseKeypoints scale e d hr
  by_cases hg : poseKeypoints.getSize 0 > 0 ∨ e ≠ 0 ∨ r.mBlendOriginalFrame = false
  · rw [if_pos hg] at hgpu
    refine ⟨DeviceOp.cpuToGpuMemoryIfNotCopiedYet (!d.copied) :: ops, ?_, ?_, ?_⟩
    · rw [hgpu]
      simp [gpuToCpuMemoryIfLastRenderer, GpuState.record, cpuToGpuMemoryIfNotCopiedYet_log]
    · intro b hb
      simp at hb
      exact (hops _ hb).2 b rfl
    · intro hn
      exact absurd hg hn
  · rw [if_neg hg] at hgpu
    refine ⟨[], ?_, by simp, fun _ => rfl⟩
    rw [hgpu]
    simp [gpuToCpuMemoryIfLastRenderer, GpuState.record]

theorem renderPose_copy_out_step_witness :
    frame.empty = false ∧
    (renderPose false smallRenderer frame noPeople 1 0 GpuState.idle).raised = none ∧
    ∃ pre : List DeviceOp,
      (renderPose false smallRenderer frame noPeople 1 0 GpuState.idle).gpu.log
        = GpuState.idle.log ++ pre
            ++ [DeviceOp.gpuToCpuMemoryIfLastRenderer smallRenderer.mIsLastRenderer] ∧
      (∀ b, DeviceOp.gpuToCpuMemoryIfLastRenderer b ∉ pre) ∧
      (¬ (noPeople.getSize 0 > 0 ∨ (0 : Nat) ≠ 0 ∨ smallRenderer.mBlendOriginalFrame = false)
        → pre = []) :=
  ⟨by decide, by decide,
   renderPose_copy_out_step false smallRenderer frame noPeople 1 0 GpuState.idle
     (by decide)⟩

/-- C2 (as the code has it): with zero people and element 0 on a non-empty frame
buffer, the drawing step is skipped exactly when `blendOriginalFrame` is true:
then the call makes no copy-in, no upload and no kernel call, only the copy-out
step.  When `blendOriginalFrame` is false the block runs: copy-in, the keypoint
kernel on zero people (no upload), then the copy-out step.  Both return `(0, "")`. -/
theorem renderPose_skip_guard (r : PoseGpuRenderer) (outputData poseKeypoints : ArrayFloat)
    (scale : ℚ) (d : GpuState) (h : outputData.empty = false)
    (hp : poseKeypoints.getSize 0 = 0) :
    (r.mBlendOriginalFrame = true →
      renderPose false r outputData poseKeypoints scale 0 d
        = { ret := (0, ""), raised := none,
            gpu := gpuToCpuMemoryIfLastRenderer r.mIsLastRenderer d }) ∧
    (r.mBlendOriginalFrame = false →
      renderPose false r outputData poseKeypoints scale 0 d
        = { ret := (0, ""), raised := none,
            gpu := gpuToCpuMemoryIfLastRenderer r.mIsLastRenderer
              ((cpuToGpuMemoryIfNotCopiedYet d).record [DeviceOp.renderPoseKeypointsGpu 0]) }) := by
  constructor
  · intro hb
    have hg : ¬ (poseKeypoints.getSize 0 > 0 ∨ (0 : Nat) ≠ 0 ∨ r.mBlendOriginalFrame = false) := by
      simp [hp, hb]
    rw [renderPose_of_skip r outputData poseKeypoints scale 0 d h hg]
    simp [skipped, toInt_zero]
  · intro hb
    have hg : poseKeypoints.getSize 0 > 0 ∨ (0 : Nat) ≠ 0 ∨ r.mBlendOriginalFrame = false :=
      Or.inr (Or.inr hb)
    rw [renderPose_of_ok r outputData poseKeypoints scale 0 d _ _ h hg
      (renderPoseElement_zero r poseKeypoints scale)]
    simp [rendered, toInt_zero, getSize_zero_empty poseKeypoints hp, hp]

theorem renderPose_skip_guard_witness :
    frame.empty = false ∧ noPeople.getSize 0 = 0 ∧
    renderPose false smallRenderer frame noPeople 1 0 GpuState.idle
      = { ret := (0, ""), raised := none,
          gpu := gpuToCpuMemoryIfLastRenderer smallRenderer.mIsLastRenderer GpuState.idle } :=
  ⟨by decide, by decide,
   (renderPose_skip_guard smallRenderer frame noPeople 1 GpuState.idle (by decide)
      (by decide)).1 (by decide)⟩

/-- C2 as stated fails: with T = 26, element 0, zero people and
`blendOriginalFrame` false, the call copies the frame in and invokes the
keypoint kernel. -/
theorem renderPose_skip_guard_counterexample :
    mNumberElementsToRender scenarioModel = 26 ∧
    scenarioRenderer.mBlendOriginalFrame = false ∧
    noPeople.getSize 0 = 0 ∧
    renderPose false scenarioRenderer frame noPeople 1 0 GpuState.idle
      = { ret := (0, ""), raised := none,
          gpu := { copied := true,
                   log := [DeviceOp.cpuToGpuMemoryIfNotCopiedYet true,
                           DeviceOp.renderPoseKeypointsGpu 0,
                           DeviceOp.gpuToCpuMemoryIfLastRenderer true] } } := by
  decide

theorem poseBytes_mono (a b n : Nat) (hab : a ≤ b) (hb : b * n * 3 < 2 ^ 32) :
    poseBytes a n ≤ poseBytes b n := by
  have h1 : a * n ≤ b * n := Nat.mul_le_mul_right n hab
  have h2 : a * n * 3 ≤ b * n * 3 := Nat.mul_le_mul_right 3 h1
  have ha3 : a * n * 3 < 2 ^ 32 := lt_of_le_of_lt h2 hb
  have hbn : b * n < 2 ^ 32 := by omega
  have han : a * n < 2 ^ 32 := by omega
  unfold poseBytes umul UINT_MOD SIZE_MOD
  rw [Nat.mod_eq_of_lt han, Nat.mod_eq_of_lt hbn, Nat.mod_eq_of_lt ha3, Nat.mod_eq_of_lt hb]
  have ha4 : a * n * 3 * 4 < 2 ^ 64 := by omega
  have hb4 : b * n * 3 * 4 < 2 ^ 64 := by omega
  rw [Nat.mod_eq_of_lt ha4, Nat.mod_eq_of_lt hb4]
  omega

/-- C7 (as the code has it): the keypoint upload of element 0 is not checked
against the capacity of the device keypoint buffer.  For every non-empty keypoint
set the call succeeds and copies `people * body parts * 3` floats, then invokes
the keypoint kernel.  The copy stays within the capacity allocated by
`initializationOnThread` whenever there are at most `POSE_MAX_PEOPLE` people (the
capacity product not wrapping). -/
theorem renderPose_keypoint_upload (r : PoseGpuRenderer) (outputData poseKeypoints : ArrayFloat)
    (scale : ℚ) (d : GpuState) (h : outputData.empty = false)
    (hk : poseKeypoints.empty = false) :
    renderPose false r outputData poseKeypoints scale 0 d
      = rendered r d 0 ""
          [DeviceOp.cudaMemcpy (poseBytes (poseKeypoints.getSize 0) r.mPoseModel.numberBodyParts),
           DeviceOp.renderPoseKeypointsGpu (poseKeypoints.getSize 0)] ∧
    (poseKeypoints.getSize 0 ≤ r.mPoseModel.maxPeople →
      r.mPoseModel.maxPeople * r.mPoseModel.numberBodyParts * 3 < 2 ^ 32 →
      poseBytes (poseKeypoints.getSize 0) r.mPoseModel.numberBodyParts
        ≤ initializationOnThread r.mPoseModel) := by
  constructor
  · have hg : poseKeypoints.getSize 0 > 0 ∨ (0 : Nat) ≠ 0 ∨ r.mBlendOriginalFrame = false :=
      Or.inl (getSize_pos_of_not_empty poseKeypoints hk)
    rw [renderPose_of_ok r outputData poseKeypoints scale 0 d _ _ h hg
      (renderPoseElement_zero r poseKeypoints scale)]
    simp [hk]
  · intro hle hcap
    exact poseBytes_mono _ _ _ hle hcap

theorem renderPose_keypoint_upload_witness :
    frame.empty = false ∧ twoPeople.empty = false ∧
    renderPose false smallRenderer frame twoPeople 1 0 GpuState.idle
      = rendered smallRenderer GpuState.idle 0 ""
          [DeviceOp.cudaMemcpy (poseBytes (twoPeople.getSize 0) smallRenderer.mPoseModel.numberBodyParts),
           DeviceOp.renderPoseKeypointsGpu (twoPeople.getSize 0)] :=
  ⟨by decide, by decide,
   (renderPose_keypoint_upload smallRenderer frame twoPeople 1 GpuState.idle (by decide)
      (by decide)).1⟩

/-- C7 as stated fails: 97 people with a capacity of 96 people are uploaded
without any error; the copy of 3492 bytes exceeds the 3456 bytes allocated. -/
theorem renderPose_keypoint_upload_counterexample :
    initializationOnThread smallModel = 3456 ∧
    poseBytes (tooManyPeople.getSize 0) smallModel.numberBodyParts = 3492 ∧
    renderPose false smallRenderer frame tooManyPeople 1 0 GpuState.idle
      = { ret := (0, ""), raised := none,
          gpu := { copied := true,
                   log := [DeviceOp.cpuToGpuMemoryIfNotCopiedYet true,
                           DeviceOp.cudaMemcpy 3492,
                           DeviceOp.renderPoseKeypointsGpu 97,
                           DeviceOp.gpuToCpuMemoryIfLastRenderer true] } } := by
  decide

/-! ## Arithmetic of the selection -/

theorem uadd_small (a b : Nat) (h : a + b < 2 ^ 32) : uadd a b = a + b := by
  unfold uadd UINT_MOD
  exact Nat.mod_eq_of_lt h

theorem usub_small (a b : Nat) (hb : b ≤ a) (ha : a < 2 ^ 32) : usub a b = a - b := by
  unfold usub UINT_MOD
  have hb2 : b < 2 ^ 32 := lt_of_le_of_lt hb ha
  rw [Nat.mod_eq_of_lt ha, Nat.mod_eq_of_lt hb2]
  omega

theorem umul_small (a b : Nat) (h : a * b < 2 ^ 32) : umul a b = a * b := by
  unfold umul UINT_MOD
  exact Nat.mod_eq_of_lt h

/-- Without wrap-around the position in `POSE_MAP_IDX` is `2 * (e - N - 4)`. -/
theorem affinityPart_small (n e : Nat) (h1 : n + 4 ≤ e) (h2 : e < 2 ^ 32)
    (h3 : 2 * (e - (n + 4)) < 2 ^ 32) : affinityPart n e = 2 * (e - (n + 4)) := by
  unfold affinityPart
  rw [uadd_small n 1 (by omega), usub_small e (n + 1) (by omega) h2,
    usub_small (e - (n + 1)) 3 (by omega) (by omega), umul_small _ _ (by omega)]
  omega

theorem mNumberElementsToRender_le (m : PoseModel) :
    mNumberElementsToRender m ≤ m.bodyPartMappingSize + m.bodyPartPairs.length / 2 + 3 := by
  unfold mNumberElementsToRender
  exact le_trans (Nat.mod_le _ _) (Nat.mod_le _ _)

/-- Below the number of elements, an index of the single-PAF range has its
position inside `POSE_MAP_IDX`, when the tables are consistent. -/
theorem affinityPart_in_range (m : PoseModel) (i : Nat)
    (hM : m.bodyPartMappingSize ≤ m.numberBodyParts + 1)
    (hlen : m.bodyPartPairs.length ≤ m.mapIdx.length)
    (hsmall : m.numberBodyParts + m.bodyPartPairs.length + 4 < 2 ^ 32)
    (hi : i < mNumberElementsToRender m) (hpaf : m.numberBodyParts + 4 ≤ i) :
    affinityPart m.numberBodyParts i = 2 * (i - (m.numberBodyParts + 4)) ∧
    2 * (i - (m.numberBodyParts + 4)) < m.mapIdx.length ∧ i < 2 ^ 32 := by
  have hT := mNumberElementsToRender_le m
  have hi2 : i < 2 ^ 32 := by omega
  have hpos : 2 * (i - (m.numberBodyParts + 4)) < m.bodyPartPairs.length := by omega
  refine ⟨affinityPart_small _ _ hpaf hi2 (by omega), by omega, hi2⟩

/-! ## The branches of the selection -/

theorem renderPoseElement_heatmap (r : PoseGpuRenderer) (poseKeypoints : ArrayFloat) (scale : ℚ)
    (e : Nat) (hs : scale ≠ -1) (h1 : 1 ≤ e) (h2 : e ≤ r.mPoseModel.numberBodyParts + 1)
    (hn : r.mPoseModel.numberBodyParts + 1 < 2 ^ 32) :
    renderPoseElement r poseKeypoints scale e
      = match r.mPartIndexToName.lookup (e - 1) with
        | none => .error .outOfRange
        | some name => .ok (name, [DeviceOp.renderPoseHeatMapGpu e]) := by
  have h0 : e ≠ 0 := by omega
  unfold renderPoseElement
  simp only [if_neg h0, if_neg hs, uadd_small _ 1 hn, if_pos h2,
    usub_small e 1 h1 (by omega)]

theorem renderPoseElement_heatmaps (r : PoseGpuRenderer) (poseKeypoints : ArrayFloat)
    (scale : ℚ) (e : Nat) (hs : scale ≠ -1) (h1 : e = r.mPoseModel.numberBodyParts + 2)
    (hn : r.mPoseModel.numberBodyParts + 2 < 2 ^ 32) :
    renderPoseElement r poseKeypoints scale e
      = .ok ("Heatmaps", [DeviceOp.renderPoseHeatMapsGpu]) := by
  have h0 : e ≠ 0 := by omega
  have h2 : ¬ e ≤ r.mPoseModel.numberBodyParts + 1 := by omega
  unfold renderPoseElement
  simp only [if_neg h0, if_neg hs, uadd_small _ 1 (show r.mPoseModel.numberBodyParts + 1 < 2 ^ 32
    by omega), if_neg h2, uadd_small (r.mPoseModel.numberBodyParts + 1) 1 (by omega), if_pos h1]

theorem renderPoseElement_pafs (r : PoseGpuRenderer) (poseKeypoints : ArrayFloat)
    (scale : ℚ) (e : Nat) (hs : scale ≠ -1) (h1 : e = r.mPoseModel.numberBodyParts + 3)
    (hn : r.mPoseModel.numberBodyParts + 3 < 2 ^ 32) :
    renderPoseElement r poseKeypoints scale e
      = .ok ("PAFs (Part Affinity Fields)", [DeviceOp.renderPosePAFsGpu]) := by
  have h0 : e ≠ 0 := by omega
  have h2 : ¬ e ≤ r.mPoseModel.numberBodyParts + 1 := by omega
  have h3 : ¬ e = r.mPoseModel.numberBodyParts + 1 + 1 := by omega
  have h4 : e = r.mPoseModel.numberBodyParts + 1 + 2 := by omega
  unfold renderPoseElement
  simp only [if_neg h0, if_neg hs, uadd_small _ 1 (show r.mPoseModel.numberBodyParts + 1 < 2 ^ 32
    by omega), if_neg h2, uadd_small (r.mPoseModel.numberBodyParts + 1) 1 (by omega), if_neg h3,
    uadd_small (r.mPoseModel.numberBodyParts + 1) 2 (by omega), if_pos h4]

theorem renderPoseElement_paf (r : PoseGpuRenderer) (poseKeypoints : ArrayFloat)
    (scale : ℚ) (e : Nat) (hs : scale ≠ -1) (h1 : r.mPoseModel.numberBodyParts + 4 ≤ e)
    (hn : r.mPoseModel.numberBodyParts + 3 < 2 ^ 32) :
    renderPoseElement r poseKeypoints scale e
      = match r.mPoseModel.mapIdx[affinityPart r.mPoseModel.numberBodyParts e]? with
        | none => .error .outOfRange
        | some affinityPartMapped =>
          match r.mPartIndexToName.lookup affinityPartMapped with
          | none => .error .outOfRange
          | some name =>
            .ok (substr name 0 (find name '('),
              [DeviceOp.renderPosePAFGpu affinityPartMapped]) := by
  have h0 : e ≠ 0 := by omega
  have h2 : ¬ e ≤ r.mPoseModel.numberBodyParts + 1 := by omega
  have h3 : ¬ e = r.mPoseModel.numberBodyParts + 1 + 1 := by omega
  have h4 : ¬ e = r.mPoseModel.numberBodyParts + 1 + 2 := by omega
  unfold renderPoseElement
  simp only [if_neg h0, if_neg hs, uadd_small _ 1 (show r.mPoseModel.numberBodyParts + 1 < 2 ^ 32
    by omega), if_neg h2, uadd_small (r.mPoseModel.numberBodyParts + 1) 1 (by omega), if_neg h3,
    uadd_small (r.mPoseModel.numberBodyParts + 1) 2 (by omega), if_neg h4]

/-- C1 (as the code has it): with N = `POSE_NUMBER_BODY_PARTS`, tables such that
the part mapping has at most N + 1 entries and `POSE_MAP_IDX` is at least as long
as the pair table, a valid scale and an index `i` below the number of elements:
`i = 0` is the keypoint element; `1 ≤ i ≤ N + 1` is the heat map of one part
(`i = N + 1` being the background), named by entry `i - 1`; `i = N + 2` is
"Heatmaps"; `i = N + 3` is "PAFs (Part Affinity Fields)"; `N + 4 ≤ i` is the PAF
of one pair, read at position `2 * (i - N - 4)` of `POSE_MAP_IDX`. -/
theorem renderPose_selection_ranges (r : PoseGpuRenderer)
    (outputData poseKeypoints : ArrayFloat) (scale : ℚ) (d : GpuState) (i : Nat)
    (h : outputData.empty = false) (hs : scale ≠ -1)
    (hM : r.mPoseModel.bodyPartMappingSize ≤ r.mPoseModel.numberBodyParts + 1)
    (hlen : r.mPoseModel.bodyPartPairs.length ≤ r.mPoseModel.mapIdx.length)
    (hsmall : r.mPoseModel.numberBodyParts + r.mPoseModel.bodyPartPairs.length + 4 < 2 ^ 32)
    (hi : i < mNumberElementsToRender r.mPoseModel) :
    (i = 0 →
      renderPose false r outputData poseKeypoints scale i d
        = if poseKeypoints.getSize 0 > 0 ∨ r.mBlendOriginalFrame = false then
            rendered r d 0 ""
              ((if poseKeypoints.empty then []
                else [DeviceOp.cudaMemcpy
                  (poseBytes (poseKeypoints.getSize 0) r.mPoseModel.numberBodyParts)])
               ++ [DeviceOp.renderPoseKeypointsGpu (poseKeypoints.getSize 0)])
          else skipped r d 0) ∧
    (1 ≤ i ∧ i ≤ r.mPoseModel.numberBodyParts + 1 →
      renderPose false r outputData poseKeypoints scale i d
        = match r.mPartIndexToName.lookup (i - 1) with
          | some name => rendered r d i name [DeviceOp.renderPoseHeatMapGpu i]
          | none => failed .outOfRange (cpuToGpuMemoryIfNotCopiedYet d)) ∧
    (i = r.mPoseModel.numberBodyParts + 2 →
      renderPose false r outputData poseKeypoints scale i d
        = rendered r d i "Heatmaps" [DeviceOp.renderPoseHeatMapsGpu]) ∧
    (i = r.mPoseModel.numberBodyParts + 3 →
      renderPose false r outputData poseKeypoints scale i d
        = rendered r d i "PAFs (Part Affinity Fields)" [DeviceOp.renderPosePAFsGpu]) ∧
    (r.mPoseModel.numberBodyParts + 4 ≤ i →
      ∃ m, r.mPoseModel.mapIdx[2 * (i - (r.mPoseModel.numberBodyParts + 4))]? = some m ∧
        renderPose false r outputData poseKeypoints scale i d
          = match r.mPartIndexToName.lookup m with
            | some name =>
              rendered r d i (substr name 0 (find name '(')) [DeviceOp.renderPosePAFGpu m]
            | none => failed .outOfRange (cpuToGpuMemoryIfNotCopiedYet d)) := by
  have hn : r.mPoseModel.numberBodyParts + 3 < 2 ^ 32 := by omega
  refine ⟨?_, ?_, ?_, ?_, ?_⟩
  · intro h0
    subst h0
    by_cases hg : poseKeypoints.getSize 0 > 0 ∨ r.mBlendOriginalFrame = false
    · have hg2 : poseKeypoints.getSize 0 > 0 ∨ (0 : Nat) ≠ 0 ∨ r.mBlendOriginalFrame = false := by
        rcases hg with hg | hg
        · exact Or.inl hg
        · exact Or.inr (Or.inr hg)
      rw [if_pos hg, renderPose_of_ok r outputData poseKeypoints scale 0 d _ _ h hg2
        (renderPoseElement_zero r poseKeypoints scale)]
    · have hg2 : ¬ (poseKeypoints.getSize 0 > 0 ∨ (0 : Nat) ≠ 0 ∨ r.mBlendOriginalFrame = false) := by
        intro hc
        rcases hc with hc | hc | hc
        · exact hg (Or.inl hc)
        · exact hc rfl
        · exact hg (Or.inr hc)
      rw [if_neg hg, renderPose_of_skip r outputData poseKeypoints scale 0 d h hg2]
  · rintro ⟨h1, h2⟩
    have hg : poseKeypoints.getSize 0 > 0 ∨ i ≠ 0 ∨ r.mBlendOriginalFrame = false :=
      Or.inr (Or.inl (by omega))
    have hel := renderPoseElement_heatmap r poseKeypoints scale i hs h1 h2 (by omega)
    cases hl : r.mPartIndexToName.lookup (i - 1) with
    | none =>
      rw [hl] at hel
      exact renderPose_of_error r outputData poseKeypoints scale i d _ h hg hel
    | some name =>
      rw [hl] at hel
      exact renderPose_of_ok r outputData poseKeypoints scale i d _ _ h hg hel
  · intro h1
    have hg : poseKeypoints.getSize 0 > 0 ∨ i ≠ 0 ∨ r.mBlendOriginalFrame = false :=
      Or.inr (Or.inl (by omega))
    exact renderPose_of_ok r outputData poseKeypoints scale i d _ _ h hg
      (renderPoseElement_heatmaps r poseKeypoints scale i hs h1 (by omega))
  · intro h1
    have hg : poseKeypoints.getSize 0 > 0 ∨ i ≠ 0 ∨ r.mBlendOriginalFrame = false :=
      Or.inr (Or.inl (by omega))
    exact renderPose_of_ok r outputData poseKeypoints scale i d _ _ h hg
      (renderPoseElement_pafs r poseKeypoints scale i hs h1 hn)
  · intro h1
    have hg : poseKeypoints.getSize 0 > 0 ∨ i ≠ 0 ∨ r.mBlendOriginalFrame = false :=
      Or.inr (Or.inl (by omega))
    obtain ⟨hpos, hlt, _⟩ := affinityPart_in_range r.mPoseModel i hM hlen hsmall hi h1
    have hel := renderPoseElement_paf r poseKeypoints scale i hs h1 hn
    rw [hpos] at hel
    refine ⟨r.mPoseModel.mapIdx[2 * (i - (r.mPoseModel.numberBodyParts + 4))], ?_, ?_⟩
    · exact List.getElem?_eq_getElem hlt
    · rw [List.getElem?_eq_getElem hlt] at hel
      cases hl : r.mPartIndexToName.lookup
          r.mPoseModel.mapIdx[2 * (i - (r.mPoseModel.numberBodyParts + 4))] with
      | none =>
        simp only [hl] at hel
        exact renderPose_of_error r outputData poseKeypoints scale i d _ h hg hel
      | some name =>
        simp only [hl] at hel
        exact renderPose_of_ok r outputData poseKeypoints scale i d _ _ h hg hel

theorem renderPose_selection_ranges_witness :
    frame.empty = false ∧ (1 : ℚ) ≠ -1 ∧
    smallRenderer.mPoseModel.bodyPartMappingSize ≤ smallRenderer.mPoseModel.numberBodyParts + 1 ∧
    smallRenderer.mPoseModel.bodyPartPairs.length ≤ smallRenderer.mPoseModel.mapIdx.length ∧
    smallRenderer.mPoseModel.numberBodyParts
      + smallRenderer.mPoseModel.bodyPartPairs.length + 4 < 2 ^ 32 ∧
    8 < mNumberElementsToRender smallRenderer.mPoseModel ∧
    smallRenderer.mPoseModel.numberBodyParts + 4 ≤ 8 ∧
    ∃ m, smallRenderer.mPoseModel.mapIdx[2 * (8 - (smallRenderer.mPoseModel.numberBodyParts + 4))]?
          = some m ∧
      renderPose false smallRenderer frame noPeople 1 8 GpuState.idle
        = match smallRenderer.mPartIndexToName.lookup m with
          | some name =>
            rendered smallRenderer GpuState.idle 8 (substr name 0 (find name '('))
              [DeviceOp.renderPosePAFGpu m]
          | none => failed .outOfRange (cpuToGpuMemoryIfNotCopiedYet GpuState.idle) :=
  ⟨by decide, by decide, by decide, by decide, by decide, by decide, by decide,
   (renderPose_selection_ranges smallRenderer frame noPeople 1 GpuState.idle 8
      (by decide) (by decide) (by decide) (by decide) (by decide) (by decide)).2.2.2.2
      (by decide)⟩

/-- C1 as stated fails: in a model with N = 3 body parts and 9 elements, index
N + 1 = 4 is the heat map of the background, not "Heatmaps", and index
N + 3 = 6 is "PAFs (Part Affinity Fields)", not the PAF of a single pair. -/
theorem renderPose_selection_ranges_counterexample :
    smallModel.numberBodyParts = 3 ∧ mNumberElementsToRender smallModel = 9 ∧
    3 + 3 < smallModel.numberBodyParts + smallModel.bodyPartPairs.length / 2 + 3 ∧
    renderPose false smallRenderer frame noPeople 1 (3 + 1) GpuState.idle
      = rendered smallRenderer GpuState.idle 4 "Background" [DeviceOp.renderPoseHeatMapGpu 4] ∧
    renderPose false smallRenderer frame noPeople 1 (3 + 1) GpuState.idle
      ≠ rendered smallRenderer GpuState.idle 4 "Heatmaps" [DeviceOp.renderPoseHeatMapsGpu] ∧
    renderPose false smallRenderer frame noPeople 1 (3 + 3) GpuState.idle
      = rendered smallRenderer GpuState.idle 6 "PAFs (Part Affinity Fields)"
          [DeviceOp.renderPosePAFsGpu] := by
  decide

theorem renderPose_ret_of_element_ok (r : PoseGpuRenderer)
    (outputData poseKeypoints : ArrayFloat) (scale : ℚ) (e : Nat) (d : GpuState)
    (name : String) (ops : List DeviceOp) (h : outputData.empty = false)
    (hel : renderPoseElement r poseKeypoints scale e = .ok (name, ops))
    (hz : e = 0 → name = "") :
    (renderPose false r outputData poseKeypoints scale e d).raised = none ∧
    (renderPose false r outputData poseKeypoints scale e d).ret = (toInt e, name) := by
  by_cases hg : poseKeypoints.getSize 0 > 0 ∨ e ≠ 0 ∨ r.mBlendOriginalFrame = false
  · rw [renderPose_of_ok r outputData poseKeypoints scale e d name ops h hg hel]
    exact ⟨rfl, rfl⟩
  · rw [renderPose_of_skip r outputData poseKeypoints scale e d h hg]
    have he : e = 0 := by
      by_contra hne
      exact hg (Or.inr (Or.inl hne))
    rw [hz he]
    exact ⟨rfl, rfl⟩

theorem existsUnique_singleton (l : List Category) (c : Category) (h : l = [c]) :
    ∃! x, l = [x] := by
  refine ⟨c, h, ?_⟩
  intro y hy
  rw [h] at hy
  simpa using hy.symm

/-- C4: with consistent tables (at most N + 1 entries in the part mapping,
`POSE_MAP_IDX` at least as long as the pair table, a name for every part, for the
background and for every entry of `POSE_MAP_IDX`) and a valid scale, every index
`i` below the number of elements computed by the constructor is rendered by
exactly one kernel, of exactly one category, and the call does not raise.  For an
index of the single-PAF branch the unsigned subtractions do not wrap and the
position read in `POSE_MAP_IDX` is below its length. -/
theorem renderPose_category_partition (r : PoseGpuRenderer)
    (outputData poseKeypoints : ArrayFloat) (scale : ℚ) (d : GpuState) (i : Nat)
    (h : outputData.empty = false) (hs : scale ≠ -1)
    (hM : r.mPoseModel.bodyPartMappingSize ≤ r.mPoseModel.numberBodyParts + 1)
    (hlen : r.mPoseModel.bodyPartPairs.length ≤ r.mPoseModel.mapIdx.length)
    (hsmall : r.mPoseModel.numberBodyParts + r.mPoseModel.bodyPartPairs.length + 4 < 2 ^ 32)
    (hparts : ∀ k, k < r.mPoseModel.numberBodyParts + 1 →
      (r.mPartIndexToName.lookup k).isSome = true)
    (hpairs : ∀ m ∈ r.mPoseModel.mapIdx, (r.mPartIndexToName.lookup m).isSome = true)
    (hi : i < mNumberElementsToRender r.mPoseModel) :
    ∃ name ops,
      renderPoseElement r poseKeypoints scale i = .ok (name, ops) ∧
      (∃! c, ops.filterMap DeviceOp.category = [c]) ∧
      (renderPose false r outputData poseKeypoints scale i d).raised = none ∧
      (renderPose false r outputData poseKeypoints scale i d).ret = (toInt i, name) ∧
      (r.mPoseModel.numberBodyParts + 4 ≤ i →
        affinityPart r.mPoseModel.numberBodyParts i + 2 * (r.mPoseModel.numberBodyParts + 4)
          = 2 * i ∧
        affinityPart r.mPoseModel.numberBodyParts i < r.mPoseModel.mapIdx.length) := by
  have hn : r.mPoseModel.numberBodyParts + 3 < 2 ^ 32 := by omega
  have hrange : r.mPoseModel.numberBodyParts + 4 ≤ i →
      affinityPart r.mPoseModel.numberBodyParts i + 2 * (r.mPoseModel.numberBodyParts + 4)
        = 2 * i ∧
      affinityPart r.mPoseModel.numberBodyParts i < r.mPoseModel.mapIdx.length := by
    intro hpaf
    obtain ⟨hpos, hlt, _⟩ := affinityPart_in_range r.mPoseModel i hM hlen hsmall hi hpaf
    rw [hpos]
    exact ⟨by omega, hlt⟩
  by_cases h0 : i = 0
  · subst h0
    have hel := renderPoseElement_zero r poseKeypoints scale
    refine ⟨_, _, hel, ?_, ?_⟩
    · apply existsUnique_singleton _ Category.KEYPOINTS
      cases poseKeypoints.empty <;> simp [DeviceOp.category]
    · obtain ⟨h1, h2⟩ := renderPose_ret_of_element_ok r outputData poseKeypoints scale 0 d _ _ h
        hel (fun _ => rfl)
      exact ⟨h1, h2, hrange⟩
  by_cases h1 : i ≤ r.mPoseModel.numberBodyParts + 1
  · have hel := renderPoseElement_heatmap r poseKeypoints scale i hs (by omega) h1 (by omega)
    have hsome := hparts (i - 1) (by omega)
    obtain ⟨name, hname⟩ := Option.isSome_iff_exists.mp hsome
    simp only [hname] at hel
    refine ⟨_, _, hel, ?_, ?_⟩
    · exact existsUnique_singleton _ Category.SINGLE_HEATMAP (by simp [DeviceOp.category])
    · obtain ⟨h2, h3⟩ := renderPose_ret_of_element_ok r outputData poseKeypoints scale i d _ _ h
        hel (fun hc => absurd hc h0)
      exact ⟨h2, h3, hrange⟩
  by_cases h2 : i = r.mPoseModel.numberBodyParts + 2
  · have hel := renderPoseElement_heatmaps r poseKeypoints scale i hs h2 (by omega)
    refine ⟨_, _, hel, ?_, ?_⟩
    · exact existsUnique_singleton _ Category.ALL_HEATMAPS (by simp [DeviceOp.category])
    · obtain ⟨h4, h5⟩ := renderPose_ret_of_element_ok r outputData poseKeypoints scale i d _ _ h
        hel (fun hc => absurd hc h0)
      exact ⟨h4, h5, hrange⟩
  by_cases h3 : i = r.mPoseModel.numberBodyParts + 3
  · have hel := renderPoseElement_pafs r poseKeypoints scale i hs h3 hn
    refine ⟨_, _, hel, ?_, ?_⟩
    · exact existsUnique_singleton _ Category.ALL_PAFS (by simp [DeviceOp.category])
    · obtain ⟨h4, h5⟩ := renderPose_ret_of_element_ok r outputData poseKeypoints scale i d _ _ h
        hel (fun hc => absurd hc h0)
      exact ⟨h4, h5, hrange⟩
  · have hpaf : r.mPoseModel.numberBodyParts + 4 ≤ i := by omega
    have hel := renderPoseElement_paf r poseKeypoints scale i hs hpaf hn
    have hlt := (hrange hpaf).2
    rw [List.getElem?_eq_getElem hlt] at hel
    have hsome := hpairs _ (List.getElem_mem hlt)
    obtain ⟨name, hname⟩ := Option.isSome_iff_exists.mp hsome
    simp only [hname] at hel
    refine ⟨_, _, hel, ?_, ?_⟩
    · exact existsUnique_singleton _ Category.SINGLE_PAF (by simp [DeviceOp.category])
    · obtain ⟨h4, h5⟩ := renderPose_ret_of_element_ok r outputData poseKeypoints scale i d _ _ h
        hel (fun hc => absurd hc h0)
      exact ⟨h4, h5, hrange⟩

theorem renderPose_category_partition_witness :
    (frame.empty = false ∧ (1 : ℚ) ≠ -1 ∧
      smallRenderer.mPoseModel.bodyPartMappingSize
        ≤ smallRenderer.mPoseModel.numberBodyParts + 1 ∧
      smallRenderer.mPoseModel.bodyPartPairs.length ≤ smallRenderer.mPoseModel.mapIdx.length ∧
      (∀ k, k < smallRenderer.mPoseModel.numberBodyParts + 1 →
        (smallRenderer.mPartIndexToName.lookup k).isSome = true) ∧
      (∀ m ∈ smallRenderer.mPoseModel.mapIdx,
        (smallRenderer.mPartIndexToName.lookup m).isSome = true) ∧
      7 < mNumberElementsToRender smallRenderer.mPoseModel) ∧
    ∃ name ops,
      renderPoseElement smallRenderer noPeople 1 7 = .ok (name, ops) ∧
      (∃! c, ops.filterMap DeviceOp.category = [c]) ∧
      (renderPose false smallRenderer frame noPeople 1 7 GpuState.idle).raised = none ∧
      (renderPose false smallRenderer frame noPeople 1 7 GpuState.idle).ret = (toInt 7, name) ∧
      (smallRenderer.mPoseModel.numberBodyParts + 4 ≤ 7 →
        affinityPart smallRenderer.mPoseModel.numberBodyParts 7
            + 2 * (smallRenderer.mPoseModel.numberBodyParts + 4) = 2 * 7 ∧
        affinityPart smallRenderer.mPoseModel.numberBodyParts 7
          < smallRenderer.mPoseModel.mapIdx.length) :=
  ⟨⟨by decide, by decide, by decide, by decide, by decide, by decide, by decide⟩,
   renderPose_category_partition smallRenderer frame noPeople 1 GpuState.idle 7
     (by decide) (by decide) (by decide) (by decide) (by decide) (by decide) (by decide)
     (by decide)⟩

/-- C9: with consistent tables whose `POSE_MAP_IDX` has no repeated entry, two
distinct indices of the single-PAF range (from N + 4, below the number of
elements) read two entries of `POSE_MAP_IDX` that exist and differ, and these are
the part-pair ids handed to the single-PAF kernel. -/
theorem renderPose_single_paf_injective (r : PoseGpuRenderer)
    (outputData poseKeypoints : ArrayFloat) (scale : ℚ) (d : GpuState) (i j : Nat)
    (h : outputData.empty = false) (hs : scale ≠ -1)
    (hM : r.mPoseModel.bodyPartMappingSize ≤ r.mPoseModel.numberBodyParts + 1)
    (hlen : r.mPoseModel.bodyPartPairs.length ≤ r.mPoseModel.mapIdx.length)
    (hsmall : r.mPoseModel.numberBodyParts + r.mPoseModel.bodyPartPairs.length + 4 < 2 ^ 32)
    (hnodup : r.mPoseModel.mapIdx.Nodup)
    (hi : i < mNumberElementsToRender r.mPoseModel) (hipaf : r.mPoseModel.numberBodyParts + 4 ≤ i)
    (hj : j < mNumberElementsToRender r.mPoseModel) (hjpaf : r.mPoseModel.numberBodyParts + 4 ≤ j)
    (hij : i ≠ j) :
    ∃ a b,
      r.mPoseModel.mapIdx[affinityPart r.mPoseModel.numberBodyParts i]? = some a ∧
      r.mPoseModel.mapIdx[affinityPart r.mPoseModel.numberBodyParts j]? = some b ∧
      a ≠ b ∧
      (∀ name, r.mPartIndexToName.lookup a = some name →
        renderPose false r outputData poseKeypoints scale i d
          = rendered r d i (substr name 0 (find name '(')) [DeviceOp.renderPosePAFGpu a]) ∧
      (∀ name, r.mPartIndexToName.lookup b = some name →
        renderPose false r outputData poseKeypoints scale j d
          = rendered r d j (substr name 0 (find name '(')) [DeviceOp.renderPosePAFGpu b]) := by
  have hn : r.mPoseModel.numberBodyParts + 3 < 2 ^ 32 := by omega
  obtain ⟨hpi, hli, _⟩ := affinityPart_in_range r.mPoseModel i hM hlen hsmall hi hipaf
  obtain ⟨hpj, hlj, _⟩ := affinityPart_in_range r.mPoseModel j hM hlen hsmall hj hjpaf
  have hgi : poseKeypoints.getSize 0 > 0 ∨ i ≠ 0 ∨ r.mBlendOriginalFrame = false :=
    Or.inr (Or.inl (by omega))
  have hgj : poseKeypoints.getSize 0 > 0 ∨ j ≠ 0 ∨ r.mBlendOriginalFrame = false :=
    Or.inr (Or.inl (by omega))
  have heli := renderPoseElement_paf r poseKeypoints scale i hs hipaf hn
  have helj := renderPoseElement_paf r poseKeypoints scale j hs hjpaf hn
  rw [hpi] at heli ⊢
  rw [hpj] at helj ⊢
  rw [List.getElem?_eq_getElem hli] at heli ⊢
  rw [List.getElem?_eq_getElem hlj] at helj ⊢
  refine ⟨_, _, rfl, rfl, ?_, ?_, ?_⟩
  · intro hab
    have hpos := (List.Nodup.getElem_inj_iff hnodup).mp hab
    omega
  · intro name hname
    simp only [hname] at heli
    exact renderPose_of_ok r outputData poseKeypoints scale i d _ _ h hgi heli
  · intro name hname
    simp only [hname] at helj
    exact renderPose_of_ok r outputData poseKeypoints scale j d _ _ h hgj helj

theorem renderPose_single_paf_injective_witness :
    (frame.empty = false ∧ (1 : ℚ) ≠ -1 ∧
      smallRenderer.mPoseModel.mapIdx.Nodup ∧
      7 < mNumberElementsToRender smallRenderer.mPoseModel ∧
      8 < mNumberElementsToRender smallRenderer.mPoseModel ∧
      smallRenderer.mPoseModel.numberBodyParts + 4 ≤ 7) ∧
    ∃ a b,
      smallRenderer.mPoseModel.mapIdx[affinityPart smallRenderer.mPoseModel.numberBodyParts 7]?
        = some a ∧
      smallRenderer.mPoseModel.mapIdx[affinityPart smallRenderer.mPoseModel.numberBodyParts 8]?
        = some b ∧
      a ≠ b ∧
      (∀ name, smallRenderer.mPartIndexToName.lookup a = some name →
        renderPose false smallRenderer frame noPeople 1 7 GpuState.idle
          = rendered smallRenderer GpuState.idle 7 (substr name 0 (find name '('))
              [DeviceOp.renderPosePAFGpu a]) ∧
      (∀ name, smallRenderer.mPartIndexToName.lookup b = some name →
        renderPose false smallRenderer frame noPeople 1 8 GpuState.idle
          = rendered smallRenderer GpuState.idle 8 (substr name 0 (find name '('))
              [DeviceOp.renderPosePAFGpu b]) :=
  ⟨⟨by decide, by decide, by decide, by decide, by decide, by decide⟩,
   renderPose_single_paf_injective smallRenderer frame noPeople 1 GpuState.idle 7 8
     (by decide) (by decide) (by decide) (by decide) (by decide) (by decide) (by decide)
     (by decide) (by decide) (by decide) (by decide)⟩

/-! ## Labels -/

theorem take_indexOf_split (c : Char) (l : List Char) (h : c ∈ l) :
    ∃ rest, l = l.take (l.indexOf c) ++ c :: rest ∧ c ∉ l.take (l.indexOf c) := by
  induction l with
  | nil => simp at h
  | cons x xs ih =>
    by_cases hx : x = c
    · subst hx
      exact ⟨xs, by simp [List.indexOf_cons], by simp [List.indexOf_cons]⟩
    · have hmem : c ∈ xs := by
        rcases List.mem_cons.mp h with h1 | h1
        · exact absurd h1.symm hx
        · exact h1
      obtain ⟨rest, h1, h2⟩ := ih hmem
      have hbeq : (x == c) = false := by simpa using hx
      refine ⟨rest, ?_, ?_⟩
      · rw [List.indexOf_cons, hbeq]
        simp only [cond_false, List.take_succ_cons, List.cons_append]
        rw [← h1]
      · rw [List.indexOf_cons, hbeq]
        simp only [cond_false, List.take_succ_cons, List.mem_cons, not_or]
        exact ⟨fun hc => hx hc.symm, h2⟩

/-- The label `name.substr(0, name.find("("))` is the part of the name before its
first opening parenthesis. -/
theorem substr_find_spec (name : String) (hlen : name.length < 2 ^ 64) :
    (∃ rest, name.data = (substr name 0 (find name '(')).data ++ rest ∧
      (rest = [] ∨ rest.head? = some '(')) ∧
    '(' ∉ (substr name 0 (find name '(')).data ∧
    ('(' ∉ name.data → substr name 0 (find name '(') = name) := by
  by_cases hmem : '(' ∈ name.data
  · obtain ⟨rest, h1, h2⟩ := take_indexOf_split '(' name.data hmem
    have hlabel : (substr name 0 (find name '(')).data
        = name.data.take (name.data.indexOf '(') := by
      simp [substr, find, hmem]
    rw [hlabel]
    refine ⟨⟨'(' :: rest, h1, Or.inr rfl⟩, h2, fun hc => absurd hmem hc⟩
  · have hlabel : substr name 0 (find name '(') = name := by
      have hle : name.data.length ≤ npos := by
        have : name.data.length < 2 ^ 64 := hlen
        unfold npos
        omega
      simp only [substr, find, if_neg hmem, List.drop_zero, List.take_of_length_le hle]
    rw [hlabel]
    exact ⟨⟨[], by simp, Or.inl rfl⟩, hmem, fun _ => rfl⟩

/-- C10 (general part): for every index of the single-PAF branch (`N + 4 ≤ i`)
whose entry `m` of `POSE_MAP_IDX` is named `name`, the call renders the PAF of
`m` and returns as label the part of `name` before its first opening
parenthesis: `name` is the label followed either by nothing or by a rest that
starts with an opening parenthesis, the label holds no opening parenthesis, and
it is the whole name when the name holds none. -/
theorem renderPose_single_paf_label (r : PoseGpuRenderer)
    (outputData poseKeypoints : ArrayFloat) (scale : ℚ) (d : GpuState) (i m : Nat)
    (name : String) (h : outputData.empty = false) (hs : scale ≠ -1)
    (hpaf : r.mPoseModel.numberBodyParts + 4 ≤ i)
    (hn : r.mPoseModel.numberBodyParts + 3 < 2 ^ 32)
    (hm : r.mPoseModel.mapIdx[affinityPart r.mPoseModel.numberBodyParts i]? = some m)
    (hname : r.mPartIndexToName.lookup m = some name)
    (hlen : name.length < 2 ^ 64) :
    ∃ label,
      renderPose false r outputData poseKeypoints scale i d
        = rendered r d i label [DeviceOp.renderPosePAFGpu m] ∧
      (∃ rest, name.data = label.data ++ rest ∧ (rest = [] ∨ rest.head? = some '(')) ∧
      '(' ∉ label.data ∧
      ('(' ∉ name.data → label = name) := by
  have hg : poseKeypoints.getSize 0 > 0 ∨ i ≠ 0 ∨ r.mBlendOriginalFrame = false :=
    Or.inr (Or.inl (by omega))
  have hel := renderPoseElement_paf r poseKeypoints scale i hs hpaf hn
  simp only [hm, hname] at hel
  obtain ⟨h1, h2, h3⟩ := substr_find_spec name hlen
  exact ⟨substr name 0 (find name '('),
    renderPose_of_ok r outputData poseKeypoints scale i d _ _ h hg hel, h1, h2, h3⟩

theorem renderPose_single_paf_label_witness :
    (mNumberElementsToRender pafScenarioModel = 26 ∧
      pafScenarioRenderer.mPoseModel.numberBodyParts + 4 ≤ 24 ∧
      pafScenarioRenderer.mPoseModel.mapIdx[
        affinityPart pafScenarioRenderer.mPoseModel.numberBodyParts 24]? = some 21 ∧
      pafScenarioRenderer.mPartIndexToName.lookup 21 = some "Nose->Neck(X)") ∧
    ∃ label,
      renderPose false pafScenarioRenderer frame noPeople 1 24 GpuState.idle
        = rendered pafScenarioRenderer GpuState.idle 24 label [DeviceOp.renderPosePAFGpu 21] ∧
      (∃ rest, ("Nose->Neck(X)" : String).data = label.data ++ rest ∧
        (rest = [] ∨ rest.head? = some '(')) ∧
      '(' ∉ label.data ∧
      ('(' ∉ ("Nose->Neck(X)" : String).data → label = "Nose->Neck(X)") :=
  ⟨⟨by decide, by decide, by decide, by decide⟩,
   renderPose_single_paf_label pafScenarioRenderer frame noPeople 1 GpuState.idle 24 21
     "Nose->Neck(X)" (by decide) (by decide) (by decide) (by decide) (by decide) (by decide)
     (by decide)⟩

/-- C10 (scenario) as stated fails: with 26 elements and body-part count 23,
index 24 = 23 + 1 is the heat map of the background, drawn by the single-heat-map
kernel and labelled with the unprocessed name; no PAF kernel is invoked. -/
theorem renderPose_single_paf_label_counterexample :
    mNumberElementsToRender scenarioModel = 26 ∧ scenarioModel.numberBodyParts = 23 ∧
    renderPose false scenarioRenderer frame noPeople 1 24 GpuState.idle
      = rendered scenarioRenderer GpuState.idle 24 "Background"
          [DeviceOp.renderPoseHeatMapGpu 24] ∧
    (renderPose false scenarioRenderer frame noPeople 1 24 GpuState.idle).gpu.log.filterMap
        DeviceOp.category = [Category.SINGLE_HEATMAP] := by
  decide

/-! ## Chains -/

theorem count_ops_zero (ops : List DeviceOp) (o : DeviceOp) (h : o ∉ ops) : ops.count o = 0 :=
  List.count_eq_zero_of_not_mem h

/-- Effect of one call that does not raise on the copy state and the copy counts. -/
theorem renderPose_step_counts (cpuOnly : Bool) (s : Stage) (outputData : ArrayFloat)
    (d : GpuState)
    (hr : (renderPose cpuOnly s.renderer outputData s.poseKeypoints s.scaleNetToOutput
      s.elementRendered d).raised = none) :
    (renderPose cpuOnly s.renderer outputData s.poseKeypoints s.scaleNetToOutput
      s.elementRendered d).gpu.copied = (d.copied || s.draws) ∧
    copyIns (renderPose cpuOnly s.renderer outputData s.poseKeypoints s.scaleNetToOutput
      s.elementRendered d).gpu.log
      = copyIns d.log + (if (!d.copied && s.draws) = true then 1 else 0) ∧
    copyOuts (renderPose cpuOnly s.renderer outputData s.poseKeypoints s.scaleNetToOutput
      s.elementRendered d).gpu.log
      = copyOuts d.log + (if s.renderer.mIsLastRenderer = true then 1 else 0) ∧
    (renderPose cpuOnly s.renderer outputData s.poseKeypoints s.scaleNetToOutput
      s.elementRendered d).gpu.log.getLast?
      = some (DeviceOp.gpuToCpuMemoryIfLastRenderer s.renderer.mIsLastRenderer) := by
  obtain ⟨ops, hops, hgpu⟩ := renderPose_ok_shape cpuOnly s.renderer outputData s.poseKeypoints
    s.scaleNetToOutput s.elementRendered d hr
  rw [hgpu]
  have hin : ops.count (DeviceOp.cpuToGpuMemoryIfNotCopiedYet true) = 0 :=
    count_ops_zero _ _ (fun hm => (hops _ hm).1 true rfl)
  have hout : ops.count (DeviceOp.gpuToCpuMemoryIfLastRenderer true) = 0 :=
    count_ops_zero _ _ (fun hm => (hops _ hm).2 true rfl)
  by_cases hg : s.poseKeypoints.getSize 0 > 0 ∨ s.elementRendered ≠ 0
      ∨ s.renderer.mBlendOriginalFrame = false
  · have hdraws : s.draws = true := by simp [Stage.draws, hg]
    rw [if_pos hg]
    refine ⟨?_, ?_, ?_, ?_⟩
    · simp [gpuToCpuMemoryIfLastRenderer, GpuState.record, cpuToGpuMemoryIfNotCopiedYet_copied,
        hdraws]
    · simp only [gpuToCpuMemoryIfLastRenderer, GpuState.record,
        cpuToGpuMemoryIfNotCopiedYet_log, copyIns, List.count_append, hin, hdraws]
      cases d.copied <;> simp [List.count_singleton]
    · simp only [gpuToCpuMemoryIfLastRenderer, GpuState.record,
        cpuToGpuMemoryIfNotCopiedYet_log, copyOuts, List.count_append, hout]
      cases s.renderer.mIsLastRenderer <;> simp [List.count_singleton]
    · simp only [gpuToCpuMemoryIfLastRenderer, GpuState.record, List.getLast?_concat]
  · have hdraws : s.draws = false := by simp [Stage.draws, hg]
    rw [if_neg hg]
    refine ⟨?_, ?_, ?_, ?_⟩
    · simp [gpuToCpuMemoryIfLastRenderer, GpuState.record, hdraws]
    · simp [gpuToCpuMemoryIfLastRenderer, GpuState.record, copyIns, List.count_append,
        hdraws, List.count_singleton]
    · simp only [gpuToCpuMemoryIfLastRenderer, GpuState.record, copyOuts, List.count_append]
      cases s.renderer.mIsLastRenderer <;> simp [List.count_singleton]
    · simp only [gpuToCpuMemoryIfLastRenderer, GpuState.record, List.getLast?_concat]

theorem count_step (c a b : Bool) (n : Nat) :
    (n + (if (!c && a) = true then 1 else 0)) + (if (!(c || a) && b) = true then 1 else 0)
      = n + (if (!c && (a || b)) = true then 1 else 0) := by
  cases c <;> cases a <;> cases b <;> simp

/-- Effect of a chain that does not raise on the copy state and the copy counts. -/
theorem renderChain_counts (cpuOnly : Bool) (outputData : ArrayFloat) (stages : List Stage) :
    ∀ d : GpuState, (renderChain cpuOnly outputData stages d).1 = none →
      (renderChain cpuOnly outputData stages d).2.copied = (d.copied || stages.any Stage.draws) ∧
      copyIns (renderChain cpuOnly outputData stages d).2.log
        = copyIns d.log + (if (!d.copied && stages.any Stage.draws) = true then 1 else 0) ∧
      copyOuts (renderChain cpuOnly outputData stages d).2.log
        = copyOuts d.log + stages.countP (fun s => s.renderer.mIsLastRenderer) := by
  induction stages with
  | nil =>
    intro d _
    simp [renderChain]
  | cons s rest ih =>
    intro d hok
    cases hr : (renderPose cpuOnly s.renderer outputData s.poseKeypoints s.scaleNetToOutput
        s.elementRendered d).raised with
    | some e =>
      simp [renderChain, hr] at hok
    | none =>
      have hchain : renderChain cpuOnly outputData (s :: rest) d
          = renderChain cpuOnly outputData rest
              (renderPose cpuOnly s.renderer outputData s.poseKeypoints s.scaleNetToOutput
                s.elementRendered d).gpu := by
        simp [renderChain, hr]
      rw [hchain] at hok ⊢
      obtain ⟨h1, h2, h3, _⟩ := renderPose_step_counts cpuOnly s outputData d hr
      obtain ⟨k1, k2, k3⟩ := ih _ hok
      rw [k1, k2, k3, h1, h2, h3]
      simp only [List.any_cons]
      refine ⟨?_, ?_, ?_⟩
      · exact Bool.or_assoc _ _ _
      · exact count_step _ _ _ _
      · rw [List.countP_cons]
        cases s.renderer.mIsLastRenderer
        · simp
        · simp only [if_true]
          omega

theorem renderChain_append (cpuOnly : Bool) (outputData : ArrayFloat) (xs ys : List Stage) :
    ∀ d : GpuState, (renderChain cpuOnly outputData xs d).1 = none →
      renderChain cpuOnly outputData (xs ++ ys) d
        = renderChain cpuOnly outputData ys (renderChain cpuOnly outputData xs d).2 := by
  induction xs with
  | nil =>
    intro d _
    simp [renderChain]
  | cons s rest ih =>
    intro d hok
    cases hr : (renderPose cpuOnly s.renderer outputData s.poseKeypoints s.scaleNetToOutput
        s.elementRendered d).raised with
    | some e =>
      simp [renderChain, hr] at hok
    | none =>
      simp only [List.cons_append, renderChain, hr] at hok ⊢
      exact ih _ hok

theorem renderChain_append_ok (cpuOnly : Bool) (outputData : ArrayFloat) (xs ys : List Stage) :
    ∀ d : GpuState, (renderChain cpuOnly outputData (xs ++ ys) d).1 = none →
      (renderChain cpuOnly outputData xs d).1 = none := by
  induction xs with
  | nil =>
    intro d _
    simp [renderChain]
  | cons s rest ih =>
    intro d hok
    cases hr : (renderPose cpuOnly s.renderer outputData s.poseKeypoints s.scaleNetToOutput
        s.elementRendered d).raised with
    | some e =>
      simp [renderChain, hr] at hok
    | none =>
      simp only [List.cons_append, renderChain, hr] at hok ⊢
      exact ih _ hok

/-- C5 (as the code has it): in a chain that starts from the idle state, whose
last stage alone is flagged as last renderer, and in which no stage raises, the
host to device copy of the frame buffer executes once when at least one stage
enters the drawing block and not at all when every stage is skipped by the guard
(nobody, element 0, blending); the device to host copy executes exactly once and
is the last device call of the chain, made by the last stage. -/
theorem renderChain_copies (cpuOnly : Bool) (outputData : ArrayFloat) (init : List Stage)
    (last : Stage) (hinit : ∀ s ∈ init, s.renderer.mIsLastRenderer = false)
    (hlast : last.renderer.mIsLastRenderer = true)
    (hok : (renderChain cpuOnly outputData (init ++ [last]) GpuState.idle).1 = none) :
    copyIns (renderChain cpuOnly outputData (init ++ [last]) GpuState.idle).2.log
      = (if (init ++ [last]).any Stage.draws = true then 1 else 0) ∧
    copyOuts (renderChain cpuOnly outputData (init ++ [last]) GpuState.idle).2.log = 1 ∧
    (renderChain cpuOnly outputData (init ++ [last]) GpuState.idle).2.log.getLast?
      = some (DeviceOp.gpuToCpuMemoryIfLastRenderer true) := by
  obtain ⟨_, h2, h3⟩ := renderChain_counts cpuOnly outputData (init ++ [last]) GpuState.idle hok
  refine ⟨?_, ?_, ?_⟩
  · rw [h2]
    simp [GpuState.idle, copyIns]
  · rw [h3]
    have hzero : List.countP (fun s => s.renderer.mIsLastRenderer) init = 0 := by
      rw [List.countP_eq_zero]
      intro s hs
      simp [hinit s hs]
    simp [GpuState.idle, copyOuts, List.countP_append, hzero, hlast]
  · have hpre := renderChain_append_ok cpuOnly outputData init [last] GpuState.idle hok
    rw [renderChain_append cpuOnly outputData init [last] GpuState.idle hpre] at hok ⊢
    cases hr : (renderPose cpuOnly last.renderer outputData last.poseKeypoints
        last.scaleNetToOutput last.elementRendered
        (renderChain cpuOnly outputData init GpuState.idle).2).raised with
    | some e =>
      simp [renderChain, hr] at hok
    | none =>
      obtain ⟨_, _, _, h4⟩ := renderPose_step_counts cpuOnly last outputData _ hr
      simp only [renderChain, hr]
      rw [h4, hlast]

theorem renderChain_copies_witness :
    ((∀ s ∈ [keypointStage, heatMapStage], s.renderer.mIsLastRenderer = false) ∧
      pafStage.renderer.mIsLastRenderer = true ∧
      (renderChain false frame ([keypointStage, heatMapStage] ++ [pafStage])
        GpuState.idle).1 = none) ∧
    copyIns (renderChain false frame ([keypointStage, heatMapStage] ++ [pafStage])
        GpuState.idle).2.log
      = (if ([keypointStage, heatMapStage] ++ [pafStage]).any Stage.draws = true then 1 else 0) ∧
    copyOuts (renderChain false frame ([keypointStage, heatMapStage] ++ [pafStage])
        GpuState.idle).2.log = 1 ∧
    (renderChain false frame ([keypointStage, heatMapStage] ++ [pafStage])
        GpuState.idle).2.log.getLast?
      = some (DeviceOp.gpuToCpuMemoryIfLastRenderer true) :=
  ⟨⟨by decide, by decide, by decide⟩,
   renderChain_copies false frame [keypointStage, heatMapStage] pafStage (by decide)
     (by decide) (by decide)⟩

/-- C5 as stated fails: a chain of one stage, flagged as last, whose drawing is
skipped (nobody, element 0, blending) completes without any host to device copy;
the copy-out still takes place. -/
theorem renderChain_copies_counterexample :
    skippedStage.renderer.mIsLastRenderer = true ∧
    renderChain false frame [skippedStage] GpuState.idle
      = (none, { copied := false, log := [DeviceOp.gpuToCpuMemoryIfLastRenderer true] }) ∧
    copyIns (renderChain false frame [skippedStage] GpuState.idle).2.log = 0 ∧
    copyOuts (renderChain false frame [skippedStage] GpuState.idle).2.log = 1 := by
  decide

end op
